import Mathlib

/-!
Shallow embedding of the Scan & Archive backend (src/main.py), a FastAPI +
MongoDB document/file CRUD service.

Modelling conventions:
* MongoDB ObjectIds are modelled as natural numbers; the textual form used in
  URLs is the 24-digit hexadecimal rendering, and bson ObjectId(s) parsing
  accepts exactly 24-character hexadecimal strings (case-insensitive).
* Each collection is an association list in insertion (natural) order;
  find_one returns the first record whose _id matches, update_one rewrites
  the first matching record, delete_one removes the first matching record.
* Byte strings are lists of naturals (each below 256).
* The process-wide database handle is modelled as connected: the uniform
  "Database not configured" 500 branch guarding every route fires only when
  the deployment lacks a database and is outside the state model.
* Every route is a pure function from a DB state (plus the request data) to
  a pair of an HTTP-level result and the successor DB state, so that writes
  performed before an error response remain visible.
-/

/-- The two HTTP error kinds raised by the handlers: status code plus detail
string, mirroring fastapi.HTTPException. -/
structure HTTPError where
  status : Nat
  detail : String
deriving Repr, DecidableEq

/-- A stored Document record. Fields mirror the dict literals in main.py;
file_blob_id is absent (None) until an upload attaches a file. -/
structure Doc where
  title : String
  tags : List String
  notes : Option String
  mime_type : Option String
  size : Option Nat
  text_preview : Option String
  file_blob_id : Option Nat
  created_at : Nat
deriving Repr, DecidableEq

/-- A stored FileBlob record, as built at src/main.py lines 120-126. -/
structure FileBlob where
  doc_id : Nat
  filename : Option String
  content_type : Option String
  size : Nat
  content : List Nat
deriving Repr, DecidableEq

/-- The database state: the two collections, the id-generation counter and
the clock used to stamp created_at. -/
structure DB where
  docs : List (Nat × Doc)
  blobs : List (Nat × FileBlob)
  nextId : Nat
  now : Nat
deriving Repr, DecidableEq

/-- collection.find_one on _id: first record with the given key. -/
def findA {α : Type} : List (Nat × α) → Nat → Option α
  | [], _ => none
  | kv :: t, k => if kv.1 = k then some kv.2 else findA t k

/-- collection.update_one on _id with a $set document: rewrite the first
record with the given key, leave the rest unchanged. -/
def updateFirst {α : Type} : List (Nat × α) → Nat → (α → α) → List (Nat × α)
  | [], _, _ => []
  | kv :: t, k, f => if kv.1 = k then (kv.1, f kv.2) :: t else kv :: updateFirst t k f

/-- collection.delete_one on _id: remove the first record with the given key. -/
def deleteFirst {α : Type} : List (Nat × α) → Nat → List (Nat × α)
  | [], _ => []
  | kv :: t, k => if kv.1 = k then t else kv :: deleteFirst t k

/-- find_one in the document collection. -/
def findDoc (s : DB) (k : Nat) : Option Doc := findA s.docs k

/-- find_one in the fileblob collection. -/
def findBlob (s : DB) (k : Nat) : Option FileBlob := findA s.blobs k

/-- Hexadecimal digit test, both cases, as accepted by bson ObjectId. -/
def isHexDigitChar (c : Char) : Bool :=
  (Char.ofNat 48 ≤ c && c ≤ Char.ofNat 57) ||
  (Char.ofNat 97 ≤ c && c ≤ Char.ofNat 102) ||
  (Char.ofNat 65 ≤ c && c ≤ Char.ofNat 70)

/-- bson ObjectId accepts a string iff it is 24 hexadecimal characters. -/
def isValidOidString (s : String) : Bool :=
  (s.length == 24) && s.data.all isHexDigitChar

/-- Numeric value of a hexadecimal digit character. -/
def hexVal (c : Char) : Nat :=
  if Char.ofNat 48 ≤ c && c ≤ Char.ofNat 57 then c.toNat - 48
  else if Char.ofNat 97 ≤ c && c ≤ Char.ofNat 102 then c.toNat - 87
  else if Char.ofNat 65 ≤ c && c ≤ Char.ofNat 70 then c.toNat - 55
  else 0

/-- Value of a big-endian hexadecimal digit list. -/
def hexValFold (l : List Char) : Nat := l.foldl (fun a c => a * 16 + hexVal c) 0

/-- ObjectId(doc_id): some numeric id on a well-formed 24-hex-character
string, none (meaning the handler raises 400) otherwise. -/
def parseOid (s : String) : Option Nat :=
  if isValidOidString s then some (hexValFold s.data) else none

/-- Lowercase hexadecimal digit character for a value below 16. -/
def hexDigit (n : Nat) : Char :=
  if n < 10 then Char.ofNat (48 + n) else Char.ofNat (87 + n % 16)

/-- Big-endian fixed-width hexadecimal rendering. -/
def toHexChars : Nat → Nat → List Char
  | 0, _ => []
  | w + 1, n => toHexChars w (n / 16) ++ [hexDigit (n % 16)]

/-- str(ObjectId): the 24-character lowercase hexadecimal form of the id. -/
def oidToString (n : Nat) : String := String.mk (toHexChars 24 n)

/-- Character equality after ASCII lowercasing, the case folding used for
case-insensitive matching. -/
def lowEq (a b : Char) : Bool := a.toLower == b.toLower

/-- Whether the pattern matches at the head of the text, comparing characters
with the given character equality. -/
def leadMatchW (eq : Char → Char → Bool) : List Char → List Char → Bool
  | [], _ => true
  | _ :: _, [] => false
  | c :: p, h :: t => eq c h && leadMatchW eq p t

/-- Whether the pattern occurs at some position of the text (substring test
parameterised by a character equality). -/
def hasSubW (eq : Char → Char → Bool) (pat : List Char) : List Char → Bool
  | [] => leadMatchW eq pat []
  | c :: t => leadMatchW eq pat (c :: t) || hasSubW eq pat t

/-- One item of a regular-expression pattern. The handlers pass the raw query
string to $regex; the PCRE fragment actually reachable from the claims uses
only literal characters and the any-character metacharacter, so the embedding
models exactly that fragment. -/
inductive RItem
  | lit (c : Char)
  | dot
deriving Repr, DecidableEq

/-- Reading of a query string as a PCRE pattern over the modelled fragment:
a full stop matches any character, everything else matches literally. -/
def parsePattern (q : String) : List RItem :=
  q.data.map fun c => if c == Char.ofNat 46 then RItem.dot else RItem.lit c

/-- Whether the pattern matches a prefix of the text, case-insensitively
(PCRE option i, ASCII folding). -/
def rmatchHere : List RItem → List Char → Bool
  | [], _ => true
  | _ :: _, [] => false
  | RItem.lit c :: p, h :: t => lowEq c h && rmatchHere p t
  | RItem.dot :: p, _ :: t => rmatchHere p t

/-- Unanchored $regex search: the pattern matches at some position. -/
def rsearch (p : List RItem) : List Char → Bool
  | [] => rmatchHere p []
  | c :: t => rmatchHere p (c :: t) || rsearch p t

/-- Characters with a special meaning in a PCRE pattern (outside classes). -/
def isRegexMeta (c : Char) : Bool :=
  c == Char.ofNat 92 || c == Char.ofNat 94 || c == Char.ofNat 36 ||
  c == Char.ofNat 46 || c == Char.ofNat 124 || c == Char.ofNat 63 ||
  c == Char.ofNat 42 || c == Char.ofNat 43 || c == Char.ofNat 40 ||
  c == Char.ofNat 41 || c == Char.ofNat 91 || c == Char.ofNat 93 ||
  c == Char.ofNat 123 || c == Char.ofNat 125

/-- UTF-8 continuation byte test. -/
def isCont (b : Nat) : Bool := 128 ≤ b && b < 192

/-- bytes.decode with errors ignore: standard UTF-8 decoding where every
maximal ill-formed subsequence is dropped instead of raising. Total, so the
try/except around the decode in main.py never fires in the model. -/
def utf8DecodeIgnore : List Nat → List Char
  | [] => []
  | b1 :: rest =>
    if b1 < 128 then
      Char.ofNat b1 :: utf8DecodeIgnore rest
    else if b1 < 194 then
      utf8DecodeIgnore rest
    else if b1 < 224 then
      match rest with
      | [] => []
      | b2 :: rest2 =>
        if isCont b2 then
          Char.ofNat ((b1 - 192) * 64 + (b2 - 128)) :: utf8DecodeIgnore rest2
        else utf8DecodeIgnore (b2 :: rest2)
    else if b1 < 240 then
      match rest with
      | [] => []
      | b2 :: rest2 =>
        if (if b1 = 224 then 160 ≤ b2 && b2 < 192
            else if b1 = 237 then 128 ≤ b2 && b2 < 160
            else isCont b2) then
          match rest2 with
          | [] => []
          | b3 :: rest3 =>
            if isCont b3 then
              Char.ofNat ((b1 - 224) * 4096 + (b2 - 128) * 64 + (b3 - 128)) ::
                utf8DecodeIgnore rest3
            else utf8DecodeIgnore (b3 :: rest3)
        else utf8DecodeIgnore (b2 :: rest2)
    else if b1 < 245 then
      match rest with
      | [] => []
      | b2 :: rest2 =>
        if (if b1 = 240 then 144 ≤ b2 && b2 < 192
            else if b1 = 244 then 128 ≤ b2 && b2 < 144
            else isCont b2) then
          match rest2 with
          | [] => []
          | b3 :: rest3 =>
            if isCont b3 then
              match rest3 with
              | [] => []
              | b4 :: rest4 =>
                if isCont b4 then
                  Char.ofNat ((b1 - 240) * 262144 + (b2 - 128) * 4096 +
                      (b3 - 128) * 64 + (b4 - 128)) :: utf8DecodeIgnore rest4
                else utf8DecodeIgnore (b4 :: rest4)
            else utf8DecodeIgnore (b3 :: rest3)
        else utf8DecodeIgnore (b2 :: rest2)
    else
      utf8DecodeIgnore rest

/-- Request body of POST /api/documents and PUT /api/documents/id
(pydantic model DocumentCreate): tags and notes optional, a missing tags
field defaulting to the empty list client-side is some [], an explicit JSON
null is none. -/
structure DocumentCreate where
  title : String
  tags : Option (List String)
  notes : Option String
deriving Repr, DecidableEq

/-- The Python expression payload.tags or [] (None and the empty list are
both falsy, and both map to the empty list). -/
def tagsOrEmpty : Option (List String) → List String
  | none => []
  | some l => l

/-- Response model DocumentOut. -/
structure DocumentOut where
  id : String
  title : String
  tags : List String
  notes : Option String
  mime_type : Option String
  size : Option Nat
  text_preview : Option String
deriving Repr, DecidableEq

/-- The response dict built (identically) at the end of the create, upload,
update and list handlers. -/
def docOut (oid : Nat) (d : Doc) : DocumentOut :=
  { id := oidToString oid
    title := d.title
    tags := d.tags
    notes := d.notes
    mime_type := d.mime_type
    size := d.size
    text_preview := d.text_preview }

/-- A multipart upload as seen by the handler: starlette UploadFile exposes
an optional filename, an optional content type, and the raw bytes returned
by await file.read(). -/
structure UploadFile where
  filename : Option String
  content_type : Option String
  content : List Nat
deriving Repr, DecidableEq

/-- Modelled from the spec: database.create_document, the persistence helper
imported from database.py, which is not present under src/. Per the spec it
is "a thin helper that inserts a mapping of fields into a named collection
and returns its generated identifier", and the spec assumes every stored
Document carries a created_at used for the listing sort, so the helper is
modelled as stamping created_at from the monotone clock when inserting into
the document collection. -/
def insertDoc (s : DB) (d : Doc) : Nat × DB :=
  (s.nextId,
    { s with
      docs := s.docs ++ [(s.nextId, { d with created_at := s.now })]
      nextId := s.nextId + 1
      now := s.now + 1 })

/-- Modelled from the spec: database.create_document applied to the fileblob
collection (the same missing helper; the FileBlob record does not model a
creation stamp since nothing reads one). -/
def insertBlob (s : DB) (b : FileBlob) : Nat × DB :=
  (s.nextId,
    { s with
      blobs := s.blobs ++ [(s.nextId, b)]
      nextId := s.nextId + 1
      now := s.now + 1 })

/-- POST /api/documents (src/main.py lines 75-99). -/
def create_document_metadata (s : DB) (payload : DocumentCreate) :
    Except HTTPError DocumentOut × DB :=
  let doc : Doc :=
    { title := payload.title
      tags := tagsOrEmpty payload.tags
      notes := payload.notes
      mime_type := none
      size := none
      text_preview := none
      file_blob_id := none
      created_at := 0 }
  let r := insertDoc s doc
  match findDoc r.2 r.1 with
  | some saved => (Except.ok (docOut r.1 saved), r.2)
  | none => (Except.error ⟨500, "Internal Server Error"⟩, r.2)

/-- The $set document applied to the Document at src/main.py lines 130-133. -/
def uploadSet (ct : Option String) (len bid : Nat) (d : Doc) : Doc :=
  { d with mime_type := ct, size := some len, file_blob_id := some bid }

/-- The content-type test guarding preview generation (line 139): the type is
truthy and either contains "text" (case-sensitive substring, Python in) or
equals "application/pdf". -/
def ctTextish : Option String → Bool
  | none => false
  | some c =>
    !(c == "") &&
      (hasSubW (fun a b => a == b) "text".data c.data || c == "application/pdf")

/-- POST /api/documents/id/upload (src/main.py lines 102-155). -/
def upload_document_file (s : DB) (doc_id : String) (file : UploadFile) :
    Except HTTPError DocumentOut × DB :=
  match parseOid doc_id with
  | none => (Except.error ⟨400, "Invalid document id"⟩, s)
  | some oid =>
    match findDoc s oid with
    | none => (Except.error ⟨404, "Document not found"⟩, s)
    | some _ =>
      let content := file.content
      let blob : FileBlob :=
        { doc_id := oid
          filename := file.filename
          content_type := file.content_type
          size := content.length
          content := content }
      let r := insertBlob s blob
      let s2 : DB :=
        { r.2 with
          docs := updateFirst r.2.docs oid (uploadSet file.content_type content.length r.1) }
      match findDoc s2 oid with
      | none => (Except.error ⟨500, "Internal Server Error"⟩, s2)
      | some updated =>
        if ctTextish file.content_type then
          let preview : String := String.mk (utf8DecodeIgnore (content.take 1024))
          let s3 : DB :=
            { s2 with
              docs := updateFirst s2.docs oid fun d => { d with text_preview := some preview } }
          match findDoc s3 oid with
          | none => (Except.error ⟨500, "Internal Server Error"⟩, s3)
          | some updated2 => (Except.ok (docOut oid updated2), s3)
        else (Except.ok (docOut oid updated), s2)

/-- blob.get content_type or application/octet-stream: the stored type when
truthy, the fallback when missing or empty. -/
def mediaTypeOf : Option String → String
  | none => "application/octet-stream"
  | some c => if c == "" then "application/octet-stream" else c

/-- The filename placed in the Content-Disposition header: the stored value,
rendered as the string None when the uploader supplied no filename (the key
is always present in the blob record, so the dict-get default never fires). -/
def dispositionFilename : Option String → String
  | none => "None"
  | some f => f

/-- GET /api/documents/id/download (src/main.py lines 158-177): on success
the payload bytes, the media type, and the disposition filename. -/
def download_document_file (s : DB) (doc_id : String) :
    Except HTTPError (List Nat × String × String) × DB :=
  match parseOid doc_id with
  | none => (Except.error ⟨400, "Invalid document id"⟩, s)
  | some oid =>
    match findDoc s oid with
    | none => (Except.error ⟨404, "File not found for this document"⟩, s)
    | some doc =>
      match doc.file_blob_id with
      | none => (Except.error ⟨404, "File not found for this document"⟩, s)
      | some bid =>
        match findBlob s bid with
        | none => (Except.error ⟨404, "File blob missing"⟩, s)
        | some blob =>
          (Except.ok (blob.content, mediaTypeOf blob.content_type,
            dispositionFilename blob.filename), s)

/-- The query parameter as a filter trigger: Python if q, so a missing or
empty query disables filtering. -/
def qNorm : Option String → Option String
  | none => none
  | some s => if s == "" then none else some s

/-- The $or filter of the list handler: the title matches the query regex
case-insensitively, or some tag does ($elemMatch with $regex). -/
def docMatchesRegex (q : String) (d : Doc) : Bool :=
  rsearch (parsePattern q) d.title.data ||
    d.tags.any fun t => rsearch (parsePattern q) t.data

/-- The filter as the spec words it (for comparison with docMatchesRegex):
the title or some tag contains the query as a case-insensitive substring. -/
def docMatchesSpec (q : String) (d : Doc) : Bool :=
  hasSubW lowEq q.data d.title.data ||
    d.tags.any fun t => hasSubW lowEq q.data t.data

/-- collection.find with the optional $or filter, in natural order. -/
def listFilter (q : Option String) (l : List (Nat × Doc)) : List (Nat × Doc) :=
  match qNorm q with
  | none => l
  | some p => l.filter fun kv => docMatchesRegex p kv.2

/-- cursor.sort created_at -1: descending by created_at (ties keep the
underlying order; the model fixes the stable insertion sort). -/
def sortByCreatedDesc (l : List (Nat × Doc)) : List (Nat × Doc) :=
  l.insertionSort fun a b => b.2.created_at ≤ a.2.created_at

/-- The document records materialized by the list handler, in response
order. -/
def listDocsInternal (s : DB) (q : Option String) : List (Nat × Doc) :=
  sortByCreatedDesc (listFilter q s.docs)

/-- GET /api/documents (src/main.py lines 180-205). -/
def list_documents (s : DB) (q : Option String) :
    Except HTTPError (List DocumentOut) × DB :=
  (Except.ok ((listDocsInternal s q).map fun kv => docOut kv.1 kv.2), s)

/-- The $set document of the update handler (src/main.py line 218). -/
def updateSet (payload : DocumentCreate) (d : Doc) : Doc :=
  { d with
    title := payload.title
    tags := tagsOrEmpty payload.tags
    notes := payload.notes }

/-- PUT /api/documents/id (src/main.py lines 208-233): update_one first,
then find_one; a miss surfaces as 404 only after the (empty) write. -/
def update_document (s : DB) (doc_id : String) (payload : DocumentCreate) :
    Except HTTPError DocumentOut × DB :=
  match parseOid doc_id with
  | none => (Except.error ⟨400, "Invalid document id"⟩, s)
  | some oid =>
    let s1 : DB := { s with docs := updateFirst s.docs oid (updateSet payload) }
    match findDoc s1 oid with
    | none => (Except.error ⟨404, "Document not found"⟩, s1)
    | some d => (Except.ok (docOut oid d), s1)

/-- DELETE /api/documents/id (src/main.py lines 236-252). -/
def delete_document (s : DB) (doc_id : String) :
    Except HTTPError String × DB :=
  match parseOid doc_id with
  | none => (Except.error ⟨400, "Invalid document id"⟩, s)
  | some oid =>
    match findDoc s oid with
    | none => (Except.error ⟨404, "Document not found"⟩, s)
    | some d =>
      let s1 : DB :=
        match d.file_blob_id with
        | some bid => { s with blobs := deleteFirst s.blobs bid }
        | none => s
      let s2 : DB := { s1 with docs := deleteFirst s1.docs oid }
      (Except.ok "deleted", s2)

/-- The FileBlob record the upload handler inserts (src/main.py lines
120-126), abbreviated for the closed-form statements below. -/
def uploadBlob (oid : Nat) (file : UploadFile) : FileBlob :=
  { doc_id := oid
    filename := file.filename
    content_type := file.content_type
    size := file.content.length
    content := file.content }

/-- The preview string the upload handler derives from the first 1024 bytes
(src/main.py line 141), abbreviated for the closed-form statements below. -/
def uploadPreviewStr (file : UploadFile) : String :=
  String.mk (utf8DecodeIgnore (file.content.take 1024))

/-- The Document record stored by the create handler once the persistence
helper stamps created_at. -/
def createdDoc (s : DB) (payload : DocumentCreate) : Doc :=
  { title := payload.title
    tags := tagsOrEmpty payload.tags
    notes := payload.notes
    mime_type := none
    size := none
    text_preview := none
    file_blob_id := none
    created_at := s.now }

/-- A concrete stored document whose title is ab, with no tags: it contains
no full stop, so it is not a substring match for the query consisting of a
single full stop. -/
def searchCxDoc : Doc :=
  { title := "ab", tags := [], notes := none, mime_type := none, size := none,
    text_preview := none, file_blob_id := none, created_at := 0 }

/-- A concrete database holding only searchCxDoc. -/
def searchCxDB : DB := { docs := [(1, searchCxDoc)], blobs := [], nextId := 2, now := 1 }

/-- Decidable equality of route results, used to evaluate the handlers on
concrete states. -/
instance exceptDecEq {ε α : Type} [DecidableEq ε] [DecidableEq α] :
    DecidableEq (Except ε α) := fun x y =>
  match x, y with
  | .ok a, .ok b =>
    if h : a = b then isTrue (by rw [h]) else isFalse (by intro he; cases he; exact h rfl)
  | .error a, .error b =>
    if h : a = b then isTrue (by rw [h]) else isFalse (by intro he; cases he; exact h rfl)
  | .ok _, .error _ => isFalse (by intro he; cases he)
  | .error _, .ok _ => isFalse (by intro he; cases he)

/-! ### Association-list laws used by the route proofs -/

theorem findA_updateFirst_self {α : Type} (l : List (Nat × α)) (k : Nat) (f : α → α)
    (v : α) (h : findA l k = some v) :
    findA (updateFirst l k f) k = some (f v) := by
  induction l with
  | nil => simp [findA] at h
  | cons kv t ih =>
    by_cases hk : kv.1 = k
    · simp [findA, updateFirst, hk] at h ⊢
      simp [h]
    · simp [findA, updateFirst, hk] at h ⊢
      exact ih h

theorem updateFirst_of_none {α : Type} (l : List (Nat × α)) (k : Nat) (f : α → α)
    (h : findA l k = none) : updateFirst l k f = l := by
  induction l with
  | nil => rfl
  | cons kv t ih =>
    by_cases hk : kv.1 = k
    · simp [findA, hk] at h
    · simp [findA, hk] at h
      simp [updateFirst, hk, ih h]

theorem findA_append_of_none {α : Type} (l l2 : List (Nat × α)) (k : Nat)
    (h : findA l k = none) : findA (l ++ l2) k = findA l2 k := by
  induction l with
  | nil => rfl
  | cons kv t ih =>
    by_cases hk : kv.1 = k
    · simp [findA, hk] at h
    · simp [findA, hk] at h ⊢
      exact ih h

theorem findA_eq_none_of_not_mem {α : Type} (l : List (Nat × α)) (k : Nat)
    (h : k ∉ l.map Prod.fst) : findA l k = none := by
  induction l with
  | nil => rfl
  | cons kv t ih =>
    simp only [List.map_cons, List.mem_cons, not_or] at h
    have hne : ¬kv.1 = k := fun he => h.1 he.symm
    simp only [findA, if_neg hne]
    exact ih h.2

theorem findA_deleteFirst_self {α : Type} (l : List (Nat × α)) (k : Nat)
    (h : (l.map Prod.fst).Nodup) : findA (deleteFirst l k) k = none := by
  induction l with
  | nil => rfl
  | cons kv t ih =>
    simp only [List.map_cons, List.nodup_cons] at h
    by_cases hk : kv.1 = k
    · simp only [deleteFirst, if_pos hk]
      exact findA_eq_none_of_not_mem t k (hk ▸ h.1)
    · simp only [deleteFirst, if_neg hk, findA, if_neg hk]
      exact ih h.2

theorem findA_deleteFirst_other {α : Type} (l : List (Nat × α)) (k k2 : Nat)
    (h : k ≠ k2) : findA (deleteFirst l k2) k = findA l k := by
  induction l with
  | nil => rfl
  | cons kv t ih =>
    by_cases hk : kv.1 = k2
    · have hne : ¬kv.1 = k := by rw [hk]; exact fun he => h he.symm
      simp only [deleteFirst, if_pos hk, findA, if_neg hne]
    · by_cases hk2 : kv.1 = k
      · simp only [deleteFirst, if_neg hk, findA, if_pos hk2]
      · simp only [deleteFirst, if_neg hk, findA, if_neg hk2]
        exact ih

theorem findA_updateFirst_other {α : Type} (l : List (Nat × α)) (k k2 : Nat) (f : α → α)
    (h : k ≠ k2) : findA (updateFirst l k2 f) k = findA l k := by
  induction l with
  | nil => rfl
  | cons kv t ih =>
    by_cases hk : kv.1 = k2
    · have hne : ¬kv.1 = k := by rw [hk]; exact fun he => h he.symm
      simp only [updateFirst, if_pos hk, findA, if_neg hne]
    · by_cases hk2 : kv.1 = k
      · simp only [updateFirst, if_neg hk, findA, if_pos hk2]
      · simp only [updateFirst, if_neg hk, findA, if_neg hk2]
        exact ih

/-! ### ObjectId rendering round-trips through parsing -/

theorem hexVal_hexDigit (m : Nat) (h : m < 16) : hexVal (hexDigit m) = m := by
  interval_cases m <;> rfl

theorem isHexDigitChar_hexDigit (m : Nat) (h : m < 16) :
    isHexDigitChar (hexDigit m) = true := by
  interval_cases m <;> rfl

theorem toHexChars_length (w : Nat) : ∀ n, (toHexChars w n).length = w := by
  induction w with
  | zero => intro n; rfl
  | succ w ih => intro n; simp [toHexChars, ih]

theorem toHexChars_all_hex (w : Nat) : ∀ n, (toHexChars w n).all isHexDigitChar = true := by
  induction w with
  | zero => intro n; rfl
  | succ w ih =>
    intro n
    simp only [toHexChars, List.all_append, ih, Bool.true_and, List.all_cons, List.all_nil,
      Bool.and_true]
    exact isHexDigitChar_hexDigit _ (Nat.mod_lt _ (by norm_num))

theorem hexValFold_toHexChars (w : Nat) : ∀ n, hexValFold (toHexChars w n) = n % 16 ^ w := by
  induction w with
  | zero => intro n; simp [hexValFold, toHexChars, Nat.mod_one]
  | succ w ih =>
    intro n
    have hstep : hexValFold (toHexChars w (n / 16) ++ [hexDigit (n % 16)]) =
        hexValFold (toHexChars w (n / 16)) * 16 + hexVal (hexDigit (n % 16)) := by
      simp [hexValFold, List.foldl_append]
    rw [toHexChars, hstep, ih, hexVal_hexDigit _ (Nat.mod_lt _ (by norm_num)), pow_succ,
      Nat.mul_comm (16 ^ w) 16, Nat.mod_mul]
    omega

theorem parseOid_oidToString (n : Nat) (h : n < 16 ^ 24) :
    parseOid (oidToString n) = some n := by
  have hlen : (oidToString n).length = 24 := toHexChars_length 24 n
  have hall : (oidToString n).data.all isHexDigitChar = true := toHexChars_all_hex 24 n
  have hv : isValidOidString (oidToString n) = true := by
    rw [isValidOidString, hlen, hall]
    rfl
  rw [parseOid, hv, if_pos rfl]
  rw [show (oidToString n).data = toHexChars 24 n from rfl, hexValFold_toHexChars,
    Nat.mod_eq_of_lt h]

/-! ### The $regex filter coincides with case-insensitive substring
containment on queries free of metacharacters -/

theorem mapPat_all_lit (l : List Char) (h : ∀ c ∈ l, isRegexMeta c = false) :
    (l.map fun c => if c == Char.ofNat 46 then RItem.dot else RItem.lit c) =
      l.map RItem.lit := by
  induction l with
  | nil => rfl
  | cons c t ih =>
    have hc : (c == Char.ofNat 46) = false := by
      by_contra hcc
      rw [Bool.not_eq_false] at hcc
      have hm := h c (List.mem_cons_self c t)
      rw [isRegexMeta, hcc] at hm
      simp at hm
    simp only [List.map_cons, hc, Bool.false_eq_true, if_false,
      ih fun c2 hc2 => h c2 (List.mem_cons_of_mem _ hc2)]

theorem rmatchHere_map_lit (p : List Char) : ∀ s, rmatchHere (p.map RItem.lit) s = leadMatchW lowEq p s := by
  induction p with
  | nil => intro s; cases s <;> rfl
  | cons c t ih =>
    intro s
    cases s with
    | nil => rfl
    | cons h2 t2 => simp [rmatchHere, leadMatchW, ih]

theorem rsearch_map_lit (p : List Char) (s : List Char) :
    rsearch (p.map RItem.lit) s = hasSubW lowEq p s := by
  induction s with
  | nil => simp [rsearch, hasSubW, rmatchHere_map_lit]
  | cons c t ih => simp [rsearch, hasSubW, rmatchHere_map_lit, ih]

theorem docMatchesRegex_eq_spec (q : String) (h : ∀ c ∈ q.data, isRegexMeta c = false)
    (d : Doc) : docMatchesRegex q d = docMatchesSpec q d := by
  unfold docMatchesRegex docMatchesSpec parsePattern
  rw [mapPat_all_lit q.data h]
  simp [rsearch_map_lit]

/-! ### Closed forms for the upload handler -/

theorem upload_eq_plain (s : DB) (sid : String) (file : UploadFile) (oid : Nat) (d0 : Doc)
    (hp : parseOid sid = some oid) (hd : findDoc s oid = some d0)
    (ht : ctTextish file.content_type = false) :
    upload_document_file s sid file =
      (Except.ok (docOut oid (uploadSet file.content_type file.content.length s.nextId d0)),
       { docs := updateFirst s.docs oid (uploadSet file.content_type file.content.length s.nextId)
         blobs := s.blobs ++ [(s.nextId, uploadBlob oid file)]
         nextId := s.nextId + 1
         now := s.now + 1 }) := by
  have hd2 : findA s.docs oid = some d0 := hd
  have h1 : findA (updateFirst s.docs oid (uploadSet file.content_type file.content.length s.nextId)) oid
      = some (uploadSet file.content_type file.content.length s.nextId d0) :=
    findA_updateFirst_self s.docs oid _ d0 hd
  simp only [upload_document_file, hp, hd2, insertBlob, findDoc, uploadBlob, h1, ht,
    Bool.false_eq_true, if_false]

theorem upload_eq_textish (s : DB) (sid : String) (file : UploadFile) (oid : Nat) (d0 : Doc)
    (hp : parseOid sid = some oid) (hd : findDoc s oid = some d0)
    (ht : ctTextish file.content_type = true) :
    upload_document_file s sid file =
      (Except.ok (docOut oid
        { uploadSet file.content_type file.content.length s.nextId d0 with
          text_preview := some (uploadPreviewStr file) }),
       { docs := updateFirst
           (updateFirst s.docs oid (uploadSet file.content_type file.content.length s.nextId)) oid
           (fun d => { d with text_preview := some (uploadPreviewStr file) })
         blobs := s.blobs ++ [(s.nextId, uploadBlob oid file)]
         nextId := s.nextId + 1
         now := s.now + 1 }) := by
  have hd2 : findA s.docs oid = some d0 := hd
  have h1 : findA (updateFirst s.docs oid (uploadSet file.content_type file.content.length s.nextId)) oid
      = some (uploadSet file.content_type file.content.length s.nextId d0) :=
    findA_updateFirst_self s.docs oid _ d0 hd
  have h2 : findA (updateFirst
        (updateFirst s.docs oid (uploadSet file.content_type file.content.length s.nextId)) oid
        (fun d => { d with text_preview := some (uploadPreviewStr file) })) oid
      = some { uploadSet file.content_type file.content.length s.nextId d0 with
               text_preview := some (uploadPreviewStr file) } :=
    findA_updateFirst_self _ oid _ _ h1
  simp only [uploadPreviewStr] at h2
  simp only [upload_document_file, hp, hd2, insertBlob, findDoc, uploadBlob, uploadPreviewStr,
    h1, h2, ht, if_true]

theorem create_eq (s : DB) (payload : DocumentCreate)
    (hfresh : findDoc s s.nextId = none) :
    create_document_metadata s payload =
      (Except.ok (docOut s.nextId (createdDoc s payload)),
       { docs := s.docs ++ [(s.nextId, createdDoc s payload)]
         blobs := s.blobs
         nextId := s.nextId + 1
         now := s.now + 1 }) := by
  have hfresh2 : findA s.docs s.nextId = none := hfresh
  have h1 : findA (s.docs ++ [(s.nextId, createdDoc s payload)]) s.nextId
      = some (createdDoc s payload) := by
    rw [findA_append_of_none _ _ _ hfresh2]
    simp [findA]
  simp only [create_document_metadata, insertDoc, findDoc, createdDoc] at h1 ⊢
  simp only [h1]

theorem update_eq (s : DB) (sid : String) (payload : DocumentCreate) (oid : Nat) (d0 : Doc)
    (hp : parseOid sid = some oid) (hd : findDoc s oid = some d0) :
    update_document s sid payload =
      (Except.ok (docOut oid (updateSet payload d0)),
       { s with docs := updateFirst s.docs oid (updateSet payload) }) := by
  have h1 : findA (updateFirst s.docs oid (updateSet payload)) oid = some (updateSet payload d0) :=
    findA_updateFirst_self s.docs oid _ d0 hd
  simp only [update_document, hp, findDoc, h1]

theorem delete_eq_blob (s : DB) (sid : String) (oid bid : Nat) (d0 : Doc)
    (hp : parseOid sid = some oid) (hd : findDoc s oid = some d0)
    (hb : d0.file_blob_id = some bid) :
    delete_document s sid =
      (Except.ok "deleted",
       { docs := deleteFirst s.docs oid
         blobs := deleteFirst s.blobs bid
         nextId := s.nextId
         now := s.now }) := by
  have hd2 : findA s.docs oid = some d0 := hd
  simp only [delete_document, hp, findDoc, hd2, hb]

/-! ### Claim theorems -/

/-- C4. Malformed-identifier handling: a doc_id string that bson ObjectId
rejects makes each of the four id-taking routes (upload, download, update,
delete) answer 400 Invalid document id, never 404 or 500. -/
theorem malformed_id_returns_400 (s : DB) (sid : String) (file : UploadFile)
    (payload : DocumentCreate) (h : isValidOidString sid = false) :
    (upload_document_file s sid file).1 = Except.error ⟨400, "Invalid document id"⟩ ∧
    (download_document_file s sid).1 = Except.error ⟨400, "Invalid document id"⟩ ∧
    (update_document s sid payload).1 = Except.error ⟨400, "Invalid document id"⟩ ∧
    (delete_document s sid).1 = Except.error ⟨400, "Invalid document id"⟩ := by
  have hp : parseOid sid = none := by
    simp [parseOid, h]
  refine ⟨?_, ?_, ?_, ?_⟩ <;>
    simp only [upload_document_file, download_document_file, update_document,
      delete_document, hp]

theorem malformed_id_returns_400_witness :
    (upload_document_file ⟨[], [], 1, 0⟩ "not-an-objectid"
        ⟨some "a", some "text/plain", []⟩).1 = Except.error ⟨400, "Invalid document id"⟩ ∧
    (download_document_file ⟨[], [], 1, 0⟩ "not-an-objectid").1 =
      Except.error ⟨400, "Invalid document id"⟩ ∧
    (update_document ⟨[], [], 1, 0⟩ "not-an-objectid" ⟨"t", none, none⟩).1 =
      Except.error ⟨400, "Invalid document id"⟩ ∧
    (delete_document ⟨[], [], 1, 0⟩ "not-an-objectid").1 =
      Except.error ⟨400, "Invalid document id"⟩ :=
  malformed_id_returns_400 ⟨[], [], 1, 0⟩ "not-an-objectid"
    ⟨some "a", some "text/plain", []⟩ ⟨"t", none, none⟩ (by decide)

/-- C10. Update of a well-formed id that matches no stored document: the
update_one write matches nothing, the post-write find_one misses, the route
answers 404 Document not found and the state is returned unchanged. -/
theorem update_missing_404_no_modify (s : DB) (sid : String) (payload : DocumentCreate)
    (oid : Nat) (hp : parseOid sid = some oid) (hd : findDoc s oid = none) :
    update_document s sid payload = (Except.error ⟨404, "Document not found"⟩, s) := by
  have hd2 : findA s.docs oid = none := hd
  have hu : updateFirst s.docs oid (updateSet payload) = s.docs :=
    updateFirst_of_none s.docs oid _ hd2
  simp only [update_document, hp, hu, findDoc, hd2]

theorem update_missing_404_no_modify_witness :
    update_document ⟨[], [], 1, 0⟩ "000000000000000000000007" ⟨"t", some ["x"], none⟩ =
      (Except.error ⟨404, "Document not found"⟩, ⟨[], [], 1, 0⟩) :=
  update_missing_404_no_modify ⟨[], [], 1, 0⟩ "000000000000000000000007"
    ⟨"t", some ["x"], none⟩ 7 (by decide) (by decide)

/-- C9. List ordering: with or without a query, the list handler returns
exactly the image under docOut of its materialized document list, that list
is pairwise sorted in descending created_at order (the creation stamp of the
persistence helper), and it is a permutation of the filtered collection, so
every matching document appears. -/
theorem list_sorted_desc_created (s : DB) (q : Option String) :
    (list_documents s q).1 =
      Except.ok ((listDocsInternal s q).map fun kv => docOut kv.1 kv.2) ∧
    List.Pairwise (fun a b : Nat × Doc => b.2.created_at ≤ a.2.created_at)
      (listDocsInternal s q) ∧
    (listDocsInternal s q).Perm (listFilter q s.docs) := by
  refine ⟨rfl, ?_, ?_⟩
  · haveI ht : IsTotal (Nat × Doc) (fun a b => b.2.created_at ≤ a.2.created_at) :=
      ⟨fun a b => Nat.le_total _ _⟩
    haveI htr : IsTrans (Nat × Doc) (fun a b => b.2.created_at ≤ a.2.created_at) :=
      ⟨fun _ _ _ hab hbc => Nat.le_trans hbc hab⟩
    exact List.sorted_insertionSort _ _
  · exact List.perm_insertionSort _ _

/-- C3, counterexample. The list query is passed to $regex, not matched as a
literal substring: the query consisting of a single full stop returns a
document titled ab even though no title or tag contains a full stop, so the
claim that a non-empty query returns exactly the case-insensitive-substring
matches is false as stated. -/
theorem search_regex_not_substring_cx :
    (list_documents searchCxDB (some ".")).1 = Except.ok [docOut 1 searchCxDoc] ∧
    docMatchesSpec "." searchCxDoc = false ∧
    (list_documents searchCxDB (some ".")).1 ≠
      Except.ok ((sortByCreatedDesc (searchCxDB.docs.filter fun kv =>
        docMatchesSpec "." kv.2)).map fun kv => docOut kv.1 kv.2) := by
  refine ⟨by decide, by decide, by decide⟩

/-- C3, amended. For a non-empty query containing no PCRE metacharacter, the
$regex filter coincides with case-insensitive substring containment: the
handler returns exactly those documents whose title or some tag contains the
query case-insensitively, sorted as always. -/
theorem search_substring_without_meta (s : DB) (q : String) (hq : q ≠ "")
    (hmeta : ∀ c ∈ q.data, isRegexMeta c = false) :
    (list_documents s (some q)).1 =
      Except.ok ((sortByCreatedDesc (s.docs.filter fun kv =>
        docMatchesSpec q kv.2)).map fun kv => docOut kv.1 kv.2) := by
  have hqb : (q == "") = false := beq_eq_false_iff_ne.mpr hq
  have hfil : (s.docs.filter fun kv => docMatchesRegex q kv.2) =
      (s.docs.filter fun kv => docMatchesSpec q kv.2) :=
    List.filter_congr fun kv _ => docMatchesRegex_eq_spec q hmeta kv.2
  simp only [list_documents, listDocsInternal, listFilter, qNorm, hqb,
    Bool.false_eq_true, if_false, hfil]

theorem search_substring_without_meta_witness :
    (list_documents searchCxDB (some "B")).1 =
      Except.ok ((sortByCreatedDesc (searchCxDB.docs.filter fun kv =>
        docMatchesSpec "B" kv.2)).map fun kv => docOut kv.1 kv.2) :=
  search_substring_without_meta searchCxDB "B" (by decide) (by decide)

/-- C8. Create postcondition: creating a document stores and returns exactly
the supplied title, tags (empty when absent) and notes, with mime_type,
size, text_preview and file_blob_id all null, and parsing the returned id
and fetching the stored record by it yields those same values. -/
theorem create_postcondition (s : DB) (payload : DocumentCreate)
    (hfresh : findDoc s s.nextId = none) (hid : s.nextId < 16 ^ 24) :
    ∃ out, (create_document_metadata s payload).1 = Except.ok out ∧
      out.title = payload.title ∧
      out.tags = tagsOrEmpty payload.tags ∧
      out.notes = payload.notes ∧
      out.mime_type = none ∧
      out.size = none ∧
      out.text_preview = none ∧
      (parseOid out.id).bind (findDoc (create_document_metadata s payload).2) =
        some { title := payload.title, tags := tagsOrEmpty payload.tags,
               notes := payload.notes, mime_type := none, size := none,
               text_preview := none, file_blob_id := none, created_at := s.now } := by
  rw [create_eq s payload hfresh]
  refine ⟨docOut s.nextId (createdDoc s payload), rfl, rfl, rfl, rfl, rfl, rfl, rfl, ?_⟩
  have hpo : parseOid (docOut s.nextId (createdDoc s payload)).id = some s.nextId :=
    parseOid_oidToString s.nextId hid
  rw [hpo]
  have hfresh2 : findA s.docs s.nextId = none := hfresh
  have hfind : findA (s.docs ++ [(s.nextId, createdDoc s payload)]) s.nextId
      = some (createdDoc s payload) := by
    rw [findA_append_of_none _ _ _ hfresh2]
    simp [findA]
  simp only [createdDoc] at hfind
  simp only [Option.bind, findDoc, createdDoc, hfind]

theorem create_postcondition_witness :
    ∃ out, (create_document_metadata ⟨[], [], 5, 7⟩ ⟨"T", some ["a"], some "n"⟩).1 =
        Except.ok out ∧
      out.title = "T" ∧
      out.tags = tagsOrEmpty (some ["a"]) ∧
      out.notes = some "n" ∧
      out.mime_type = none ∧
      out.size = none ∧
      out.text_preview = none ∧
      (parseOid out.id).bind
          (findDoc (create_document_metadata ⟨[], [], 5, 7⟩ ⟨"T", some ["a"], some "n"⟩).2) =
        some { title := "T", tags := tagsOrEmpty (some ["a"]), notes := some "n",
               mime_type := none, size := none, text_preview := none,
               file_blob_id := none, created_at := 7 } :=
  create_postcondition ⟨[], [], 5, 7⟩ ⟨"T", some ["a"], some "n"⟩ (by decide) (by decide)

/-- C6. Update replace-and-frame: a successful update of an existing
document stores exactly the payload title, tags (replaced wholesale, empty
when the payload carries none) and notes, leaves the document mime_type,
size, text_preview and file_blob_id unchanged, leaves every other document
untouched, and returns the updated representation. -/
theorem update_replaces_and_frames (s : DB) (sid : String) (payload : DocumentCreate)
    (oid : Nat) (d0 : Doc) (hp : parseOid sid = some oid) (hd : findDoc s oid = some d0) :
    (update_document s sid payload).1 = Except.ok (docOut oid (updateSet payload d0)) ∧
    findDoc (update_document s sid payload).2 oid = some (updateSet payload d0) ∧
    (updateSet payload d0).title = payload.title ∧
    (updateSet payload d0).tags = tagsOrEmpty payload.tags ∧
    (updateSet payload d0).notes = payload.notes ∧
    (updateSet payload d0).mime_type = d0.mime_type ∧
    (updateSet payload d0).size = d0.size ∧
    (updateSet payload d0).text_preview = d0.text_preview ∧
    (updateSet payload d0).file_blob_id = d0.file_blob_id ∧
    ∀ k, k ≠ oid → findDoc (update_document s sid payload).2 k = findDoc s k := by
  rw [update_eq s sid payload oid d0 hp hd]
  refine ⟨rfl, ?_, rfl, rfl, rfl, rfl, rfl, rfl, rfl, ?_⟩
  · exact findA_updateFirst_self s.docs oid _ d0 hd
  · intro k hk
    exact findA_updateFirst_other s.docs k oid _ hk

theorem update_replaces_and_frames_witness :
    (update_document
        ⟨[(3, ⟨"Old", ["a", "b"], some "n", some "text/plain", some 2, some "hi", some 9, 1⟩)],
         [], 10, 2⟩
        "000000000000000000000003" ⟨"New", some ["x"], none⟩).1 =
      Except.ok (docOut 3 (updateSet ⟨"New", some ["x"], none⟩
        ⟨"Old", ["a", "b"], some "n", some "text/plain", some 2, some "hi", some 9, 1⟩)) ∧
    (updateSet ⟨"New", some ["x"], none⟩
        ⟨"Old", ["a", "b"], some "n", some "text/plain", some 2, some "hi", some 9, 1⟩).tags =
      tagsOrEmpty (some ["x"]) := by
  have h := update_replaces_and_frames
    ⟨[(3, ⟨"Old", ["a", "b"], some "n", some "text/plain", some 2, some "hi", some 9, 1⟩)],
     [], 10, 2⟩
    "000000000000000000000003" ⟨"New", some ["x"], none⟩ 3
    ⟨"Old", ["a", "b"], some "n", some "text/plain", some 2, some "hi", some 9, 1⟩
    (by decide) (by decide)
  exact ⟨h.1, h.2.2.2.1⟩

/-- C2. Upload postcondition: a successful upload to an existing document
answers with a representation whose size is the exact byte length of the
payload and whose mime_type is the content type the uploader supplied, and
the stored document record carries the same two values. -/
theorem upload_sets_size_mime (s : DB) (sid : String) (file : UploadFile) (oid : Nat)
    (d0 : Doc) (hp : parseOid sid = some oid) (hd : findDoc s oid = some d0) :
    ∃ out, (upload_document_file s sid file).1 = Except.ok out ∧
      out.size = some file.content.length ∧
      out.mime_type = file.content_type ∧
      (findDoc (upload_document_file s sid file).2 oid).map Doc.size =
        some (some file.content.length) ∧
      (findDoc (upload_document_file s sid file).2 oid).map Doc.mime_type =
        some file.content_type := by
  cases ht : ctTextish file.content_type with
  | false =>
    rw [upload_eq_plain s sid file oid d0 hp hd ht]
    refine ⟨_, rfl, rfl, rfl, ?_, ?_⟩ <;>
      rw [show findDoc
            ({ docs := updateFirst s.docs oid
                 (uploadSet file.content_type file.content.length s.nextId)
               blobs := s.blobs ++ [(s.nextId, uploadBlob oid file)]
               nextId := s.nextId + 1
               now := s.now + 1 } : DB) oid =
          some (uploadSet file.content_type file.content.length s.nextId d0) from
          findA_updateFirst_self s.docs oid _ d0 hd] <;> rfl
  | true =>
    rw [upload_eq_textish s sid file oid d0 hp hd ht]
    have h1 : findA (updateFirst s.docs oid
        (uploadSet file.content_type file.content.length s.nextId)) oid
        = some (uploadSet file.content_type file.content.length s.nextId d0) :=
      findA_updateFirst_self s.docs oid _ d0 hd
    have h2 : findA (updateFirst
        (updateFirst s.docs oid (uploadSet file.content_type file.content.length s.nextId)) oid
        (fun d => { d with text_preview := some (uploadPreviewStr file) })) oid
        = some { uploadSet file.content_type file.content.length s.nextId d0 with
                 text_preview := some (uploadPreviewStr file) } :=
      findA_updateFirst_self _ oid _ _ h1
    refine ⟨_, rfl, rfl, rfl, ?_, ?_⟩ <;>
      rw [show findDoc
            ({ docs := updateFirst
                 (updateFirst s.docs oid
                   (uploadSet file.content_type file.content.length s.nextId)) oid
                 (fun d => { d with text_preview := some (uploadPreviewStr file) })
               blobs := s.blobs ++ [(s.nextId, uploadBlob oid file)]
               nextId := s.nextId + 1
               now := s.now + 1 } : DB) oid =
          some { uploadSet file.content_type file.content.length s.nextId d0 with
                 text_preview := some (uploadPreviewStr file) } from h2] <;> rfl

theorem upload_sets_size_mime_witness :
    ∃ out, (upload_document_file
        ⟨[(1, ⟨"D", [], none, none, none, none, none, 0⟩)], [], 2, 1⟩
        "000000000000000000000001"
        ⟨some "a.bin", some "application/octet-stream", [0, 1, 2]⟩).1 = Except.ok out ∧
      out.size = some 3 ∧
      out.mime_type = some "application/octet-stream" := by
  obtain ⟨out, h1, h2, h3, _, _⟩ := upload_sets_size_mime
    ⟨[(1, ⟨"D", [], none, none, none, none, none, 0⟩)], [], 2, 1⟩
    "000000000000000000000001"
    ⟨some "a.bin", some "application/octet-stream", [0, 1, 2]⟩ 1
    ⟨"D", [], none, none, none, none, none, 0⟩ (by decide) (by decide)
  exact ⟨out, h1, h2, h3⟩

/-- C5. Text-preview postcondition: when the supplied content type contains
"text" or equals application/pdf, a successful upload sets text_preview,
in the response and in the store, to the lenient UTF-8 decode of the first
1024 payload bytes (total, never an error); otherwise the handler never
writes text_preview, so a document whose preview was null keeps it null. -/
theorem upload_text_preview (s : DB) (sid : String) (file : UploadFile) (oid : Nat)
    (d0 : Doc) (hp : parseOid sid = some oid) (hd : findDoc s oid = some d0) :
    (ctTextish file.content_type = true →
      ∃ out, (upload_document_file s sid file).1 = Except.ok out ∧
        out.text_preview = some (uploadPreviewStr file) ∧
        (findDoc (upload_document_file s sid file).2 oid).map Doc.text_preview =
          some (some (uploadPreviewStr file))) ∧
    (ctTextish file.content_type = false →
      ∃ out, (upload_document_file s sid file).1 = Except.ok out ∧
        out.text_preview = d0.text_preview ∧
        (findDoc (upload_document_file s sid file).2 oid).map Doc.text_preview =
          some d0.text_preview) := by
  constructor
  · intro ht
    rw [upload_eq_textish s sid file oid d0 hp hd ht]
    have h1 : findA (updateFirst s.docs oid
        (uploadSet file.content_type file.content.length s.nextId)) oid
        = some (uploadSet file.content_type file.content.length s.nextId d0) :=
      findA_updateFirst_self s.docs oid _ d0 hd
    have h2 : findA (updateFirst
        (updateFirst s.docs oid (uploadSet file.content_type file.content.length s.nextId)) oid
        (fun d => { d with text_preview := some (uploadPreviewStr file) })) oid
        = some { uploadSet file.content_type file.content.length s.nextId d0 with
                 text_preview := some (uploadPreviewStr file) } :=
      findA_updateFirst_self _ oid _ _ h1
    refine ⟨_, rfl, rfl, ?_⟩
    rw [show findDoc
          ({ docs := updateFirst
               (updateFirst s.docs oid
                 (uploadSet file.content_type file.content.length s.nextId)) oid
               (fun d => { d with text_preview := some (uploadPreviewStr file) })
             blobs := s.blobs ++ [(s.nextId, uploadBlob oid file)]
             nextId := s.nextId + 1
             now := s.now + 1 } : DB) oid =
        some { uploadSet file.content_type file.content.length s.nextId d0 with
               text_preview := some (uploadPreviewStr file) } from h2]
    rfl
  · intro ht
    rw [upload_eq_plain s sid file oid d0 hp hd ht]
    refine ⟨_, rfl, rfl, ?_⟩
    rw [show findDoc
          ({ docs := updateFirst s.docs oid
               (uploadSet file.content_type file.content.length s.nextId)
             blobs := s.blobs ++ [(s.nextId, uploadBlob oid file)]
             nextId := s.nextId + 1
             now := s.now + 1 } : DB) oid =
        some (uploadSet file.content_type file.content.length s.nextId d0) from
        findA_updateFirst_self s.docs oid _ d0 hd]
    rfl

theorem upload_text_preview_witness :
    (∃ out, (upload_document_file
        ⟨[(1, ⟨"D", [], none, none, none, none, none, 0⟩)], [], 2, 1⟩
        "000000000000000000000001"
        ⟨some "h.txt", some "text/plain",
         [104, 101, 108, 108, 111, 32, 119, 111, 114, 108, 100]⟩).1 = Except.ok out ∧
      out.text_preview = some "hello world") ∧
    (∃ out, (upload_document_file
        ⟨[(1, ⟨"D", [], none, none, none, none, none, 0⟩)], [], 2, 1⟩
        "000000000000000000000001"
        ⟨some "b.bin", some "application/octet-stream", [0, 255]⟩).1 = Except.ok out ∧
      out.text_preview = none) := by
  constructor
  · obtain ⟨out, h1, h2, _⟩ := (upload_text_preview
      ⟨[(1, ⟨"D", [], none, none, none, none, none, 0⟩)], [], 2, 1⟩
      "000000000000000000000001"
      ⟨some "h.txt", some "text/plain",
       [104, 101, 108, 108, 111, 32, 119, 111, 114, 108, 100]⟩ 1
      ⟨"D", [], none, none, none, none, none, 0⟩ (by decide) (by decide)).1 (by decide)
    exact ⟨out, h1, h2.trans (by decide)⟩
  · obtain ⟨out, h1, h2, _⟩ := (upload_text_preview
      ⟨[(1, ⟨"D", [], none, none, none, none, none, 0⟩)], [], 2, 1⟩
      "000000000000000000000001"
      ⟨some "b.bin", some "application/octet-stream", [0, 255]⟩ 1
      ⟨"D", [], none, none, none, none, none, 0⟩ (by decide) (by decide)).2 (by decide)
    exact ⟨out, h1, h2⟩

/-- C7. Delete cascade: deleting an existing document that references a
FileBlob answers deleted, removes the document record and its blob record,
and a subsequent download of the same id answers 404. -/
theorem delete_cascade (s : DB) (sid : String) (oid bid : Nat) (d0 : Doc)
    (hp : parseOid sid = some oid) (hd : findDoc s oid = some d0)
    (hb : d0.file_blob_id = some bid)
    (hnd : (s.docs.map Prod.fst).Nodup) (hnb : (s.blobs.map Prod.fst).Nodup) :
    (delete_document s sid).1 = Except.ok "deleted" ∧
    findDoc (delete_document s sid).2 oid = none ∧
    findBlob (delete_document s sid).2 bid = none ∧
    (download_document_file (delete_document s sid).2 sid).1 =
      Except.error ⟨404, "File not found for this document"⟩ := by
  rw [delete_eq_blob s sid oid bid d0 hp hd hb]
  have hdoc : findA (deleteFirst s.docs oid) oid = none :=
    findA_deleteFirst_self s.docs oid hnd
  have hblob : findA (deleteFirst s.blobs bid) bid = none :=
    findA_deleteFirst_self s.blobs bid hnb
  refine ⟨rfl, hdoc, hblob, ?_⟩
  simp only [download_document_file, hp, findDoc, hdoc]

theorem delete_cascade_witness :
    (delete_document
        ⟨[(1, ⟨"D", [], none, some "text/plain", some 2, some "hi", some 7, 0⟩)],
         [(7, ⟨1, some "a.txt", some "text/plain", 2, [104, 105]⟩)], 8, 1⟩
        "000000000000000000000001").1 = Except.ok "deleted" ∧
    findDoc (delete_document
        ⟨[(1, ⟨"D", [], none, some "text/plain", some 2, some "hi", some 7, 0⟩)],
         [(7, ⟨1, some "a.txt", some "text/plain", 2, [104, 105]⟩)], 8, 1⟩
        "000000000000000000000001").2 1 = none ∧
    findBlob (delete_document
        ⟨[(1, ⟨"D", [], none, some "text/plain", some 2, some "hi", some 7, 0⟩)],
         [(7, ⟨1, some "a.txt", some "text/plain", 2, [104, 105]⟩)], 8, 1⟩
        "000000000000000000000001").2 7 = none ∧
    (download_document_file (delete_document
        ⟨[(1, ⟨"D", [], none, some "text/plain", some 2, some "hi", some 7, 0⟩)],
         [(7, ⟨1, some "a.txt", some "text/plain", 2, [104, 105]⟩)], 8, 1⟩
        "000000000000000000000001").2 "000000000000000000000001").1 =
      Except.error ⟨404, "File not found for this document"⟩ :=
  delete_cascade
    ⟨[(1, ⟨"D", [], none, some "text/plain", some 2, some "hi", some 7, 0⟩)],
     [(7, ⟨1, some "a.txt", some "text/plain", 2, [104, 105]⟩)], 8, 1⟩
    "000000000000000000000001" 1 7
    ⟨"D", [], none, some "text/plain", some 2, some "hi", some 7, 0⟩
    (by decide) (by decide) (by decide) (by decide) (by decide)

/-- C1. Round-trip: after a successful upload of a payload with a non-empty
content type and a filename to an existing document, downloading the same id
answers exactly the uploaded bytes, served with that content type and
filename. -/
theorem upload_download_roundtrip (s : DB) (sid : String) (file : UploadFile)
    (oid : Nat) (d0 : Doc) (ct fn : String)
    (hp : parseOid sid = some oid) (hd : findDoc s oid = some d0)
    (hfresh : findBlob s s.nextId = none)
    (hct : file.content_type = some ct) (hcne : ct ≠ "")
    (hfn : file.filename = some fn) :
    (download_document_file (upload_document_file s sid file).2 sid).1 =
      Except.ok (file.content, ct, fn) := by
  have hfresh2 : findA s.blobs s.nextId = none := hfresh
  have hblob : findA (s.blobs ++ [(s.nextId, uploadBlob oid file)]) s.nextId
      = some (uploadBlob oid file) := by
    rw [findA_append_of_none _ _ _ hfresh2]
    simp [findA]
  have hctb : (ct == "") = false := beq_eq_false_iff_ne.mpr hcne
  cases ht : ctTextish file.content_type with
  | true =>
    rw [upload_eq_textish s sid file oid d0 hp hd ht]
    have h1 : findA (updateFirst s.docs oid
        (uploadSet file.content_type file.content.length s.nextId)) oid
        = some (uploadSet file.content_type file.content.length s.nextId d0) :=
      findA_updateFirst_self s.docs oid _ d0 hd
    have h2 : findA (updateFirst
        (updateFirst s.docs oid (uploadSet file.content_type file.content.length s.nextId)) oid
        (fun d => { d with text_preview := some (uploadPreviewStr file) })) oid
        = some { uploadSet file.content_type file.content.length s.nextId d0 with
                 text_preview := some (uploadPreviewStr file) } :=
      findA_updateFirst_self _ oid _ _ h1
    simp only [uploadBlob, hct, hfn] at hblob
    simp only [hct] at h2
    simp only [download_document_file, hp, findDoc, findBlob, uploadBlob, hct, hfn,
      h2, hblob, uploadSet, mediaTypeOf, hctb, Bool.false_eq_true, if_false,
      dispositionFilename]
  | false =>
    rw [upload_eq_plain s sid file oid d0 hp hd ht]
    have h1 : findA (updateFirst s.docs oid
        (uploadSet file.content_type file.content.length s.nextId)) oid
        = some (uploadSet file.content_type file.content.length s.nextId d0) :=
      findA_updateFirst_self s.docs oid _ d0 hd
    simp only [uploadBlob, hct, hfn] at hblob
    simp only [hct] at h1
    simp only [download_document_file, hp, findDoc, findBlob, uploadBlob, hct, hfn,
      h1, hblob, uploadSet, mediaTypeOf, hctb, Bool.false_eq_true, if_false,
      dispositionFilename]

theorem upload_download_roundtrip_witness :
    (download_document_file (upload_document_file
        ⟨[(1, ⟨"D", [], none, none, none, none, none, 0⟩)], [], 2, 1⟩
        "000000000000000000000001"
        ⟨some "a.txt", some "text/plain", [104, 105]⟩).2
      "000000000000000000000001").1 =
      Except.ok ([104, 105], "text/plain", "a.txt") :=
  upload_download_roundtrip
    ⟨[(1, ⟨"D", [], none, none, none, none, none, 0⟩)], [], 2, 1⟩
    "000000000000000000000001" ⟨some "a.txt", some "text/plain", [104, 105]⟩ 1
    ⟨"D", [], none, none, none, none, none, 0⟩ "text/plain" "a.txt"
    (by decide) (by decide) (by decide) (by decide) (by decide) (by decide)
